import Mathlib

/-!
Shallow embedding of the Sea-Guardian Lagrangian particle simulator
(src/app.py) and verification of the frozen claims about it.

Modelling conventions:
- Python floats are idealised as real numbers.
- The numpy generator `np.random.default_rng(seed)` is a deterministic
  function of its seed; it is modelled by passing its stream of
  standard-normal draws explicitly as `g : ℕ → ℝ`, consumed in exactly
  the order the code draws them (`rng.normal(0, s, size=n)` yields
  `s * g k` for the next `n` indices `k`).
- numpy arrays of per-particle values are modelled as functions `ℕ → ℝ`
  together with the particle count `n`; every array operation in the code
  is pointwise, and all outputs only read indices `< n`.
- The repository ships no NetCDF files, so `load_ecco_uv()` and
  `load_merra2_wind()` return `None`; the global provider `FIELDS`
  therefore carries no datasets.  The dataset branch is still embedded
  (`sample_from_dataset`, `bilinear_interpolate`) as in the source.
-/

noncomputable section

/-- Geographic bounding box, mirroring the `DOMAIN` dict of app.py. -/
structure DomainBox where
  lat_min : ℝ
  lat_max : ℝ
  lon_min : ℝ
  lon_max : ℝ

/-- DOMAIN = dict(lat_min=22.5, lat_max=26.0, lon_min=56.5, lon_max=60.5). -/
def DOMAIN : DomainBox := ⟨22.5, 26.0, 56.5, 60.5⟩

/-- DT_SECONDS = 600.0 (integration step, seconds). -/
def DT_SECONDS : ℝ := 600.0

/-- SAMPLE_EVERY_STEPS = 3 (centroid subsampling period). -/
def SAMPLE_EVERY_STEPS : ℕ := 3

/-- clamp(v, a, b) = max(a, min(b, v)) from app.py, as used on the integer
grid indices of the interpolator. -/
def clamp (v a b : ℤ) : ℤ := max a (min b v)

/-- np.clip(x, a, b): values below a are pinned to a, above b to b
(equivalent to min(b, max(a, x))). -/
def npClip (x a b : ℝ) : ℝ := min b (max a x)

/-- math.radians: degrees to radians. -/
def radians (x : ℝ) : ℝ := x * Real.pi / 180

/-- Python int() applied to a real value: truncation toward zero. -/
def pyIntTrunc (x : ℝ) : ℤ := if 0 ≤ x then ⌊x⌋ else -⌊-x⌋

/-- steps = int(abs(hours*3600/DT_SECONDS)) from simulate_particles. -/
def numSteps (hours : ℝ) : ℕ := (pyIntTrunc |hours * 3600 / DT_SECONDS|).toNat

/-- Synthetic field generator; the constructor copies the Domain bounds
(class SyntheticFields in app.py). -/
structure SyntheticFields where
  lat_min : ℝ
  lat_max : ℝ
  lon_min : ℝ
  lon_max : ℝ

/-- SyntheticFields.uv_current(lat, lon, tsec): weak rotational gyre with a
daily modulation plus a small coastal drift added to u. -/
def SyntheticFields.uv_current (sf : SyntheticFields) (lat lon tsec : ℝ) : ℝ × ℝ :=
  let ly := (lat - sf.lat_min) / (sf.lat_max - sf.lat_min + 1e-9)
  let lx := (lon - sf.lon_min) / (sf.lon_max - sf.lon_min + 1e-9)
  let base : ℝ := 0.25
  let u := base * (Real.sin (2 * Real.pi * lx) * Real.cos (2 * Real.pi * ly)) *
      (1 + 0.1 * Real.sin (2 * Real.pi * tsec / 86400))
  let v := base * (-Real.cos (2 * Real.pi * lx) * Real.sin (2 * Real.pi * ly)) *
      (1 + 0.1 * Real.cos (2 * Real.pi * tsec / 86400))
  (u + 0.05 * Real.cos (2 * Real.pi * ly), v)

/-- SyntheticFields.uv_wind10m(lat, lon, tsec): spatially uniform wind with
fixed bearing 60 degrees and a diurnal speed oscillation. -/
def SyntheticFields.uv_wind10m (_sf : SyntheticFields) (_lat _lon tsec : ℝ) : ℝ × ℝ :=
  let speed := 4.0 + 1.0 * Real.sin (2 * Real.pi * tsec / 86400)
  let direction_rad := radians 60.0
  (speed * Real.cos direction_rad, speed * Real.sin direction_rad)

/-- SYN = SyntheticFields(DOMAIN): the module-level synthetic field model. -/
def SYN : SyntheticFields := ⟨DOMAIN.lat_min, DOMAIN.lat_max, DOMAIN.lon_min, DOMAIN.lon_max⟩

/-- Clamped lower cell index used by bilinear_interpolate:
x0 = clamp(floor(x), 0, extent-1). -/
def idx0 (extent : ℕ) (x : ℝ) : ℤ := clamp ⌊x⌋ 0 ((extent : ℤ) - 1)

/-- Clamped upper cell index used by bilinear_interpolate:
x1 = clamp(floor(x)+1, 0, extent-1). -/
def idx1 (extent : ℕ) (x : ℝ) : ℤ := clamp (⌊x⌋ + 1) 0 ((extent : ℤ) - 1)

/-- bilinear_interpolate(arr2d, x, y) from app.py.  `arr` has shape
(ny, nx) and is indexed arr[row][col]; the fractional offsets dx, dy are
taken relative to the clamped lower indices, exactly as in the source. -/
def bilinear_interpolate (arr : ℕ → ℕ → ℝ) (ny nx : ℕ) (x y : ℝ) : ℝ :=
  arr (idx0 ny y).toNat (idx0 nx x).toNat * (1 - (x - ((idx0 nx x : ℤ) : ℝ))) *
      (1 - (y - ((idx0 ny y : ℤ) : ℝ)))
  + arr (idx0 ny y).toNat (idx1 nx x).toNat * (x - ((idx0 nx x : ℤ) : ℝ)) *
      (1 - (y - ((idx0 ny y : ℤ) : ℝ)))
  + arr (idx1 ny y).toNat (idx0 nx x).toNat * (1 - (x - ((idx0 nx x : ℤ) : ℝ))) *
      (y - ((idx0 ny y : ℤ) : ℝ))
  + arr (idx1 ny y).toNat (idx1 nx x).toNat * (x - ((idx0 nx x : ℤ) : ℝ)) *
      (y - ((idx0 ny y : ℤ) : ℝ))

/-- Model of a successfully opened xarray dataset (ECCO currents or MERRA-2
wind): two component variables indexed (time, lat-row, lon-col) plus the
1-D coordinate arrays. -/
structure GridDataset where
  var1 : ℕ → ℕ → ℕ → ℝ
  var2 : ℕ → ℕ → ℕ → ℝ
  lats : List ℝ
  lons : List ℝ

/-- np.searchsorted(xs, v) with side 'left' on an ascending array: the
number of entries strictly below v. -/
def searchsorted (xs : List ℝ) (v : ℝ) : ℕ := xs.countP (fun a => decide (a < v))

/-- sample_from_dataset(ds, varname, lat, lon, tindex) from app.py: locate
the bracketing cell by binary search, clamp to the last full interval,
build fractional index-space coordinates with a zero-spacing guard, then
interpolate bilinearly.  (Coordinate lookups are modelled with a default
of 0 out of range; after the clamp they are in range for any grid with at
least two points per axis.) -/
def sample_from_dataset (vals : ℕ → ℕ → ℕ → ℝ) (lats lons : List ℝ)
    (lat lon : ℝ) (tindex : ℕ) : ℝ :=
  let iy : ℤ := clamp ((searchsorted lats lat : ℤ) - 1) 0 ((lats.length : ℤ) - 2)
  let ix : ℤ := clamp ((searchsorted lons lon : ℤ) - 1) 0 ((lons.length : ℤ) - 2)
  let x : ℝ := (ix : ℝ) +
    (lon - lons.getD ix.toNat 0) / max (lons.getD (ix.toNat + 1) 0 - lons.getD ix.toNat 0) 1e-9
  let y : ℝ := (iy : ℝ) +
    (lat - lats.getD iy.toNat 0) / max (lats.getD (iy.toNat + 1) 0 - lats.getD iy.toNat 0) 1e-9
  bilinear_interpolate (vals tindex) lats.length lons.length x y

/-- class FieldProvider: optional datasets per field kind plus the fixed
time indices used for sampling. -/
structure FieldProvider where
  ds_ecco : Option GridDataset
  ds_merra : Option GridDataset
  tidx_ecco : ℕ
  tidx_merra : ℕ

/-- FieldProvider.current_uv: sample the ECCO dataset when present,
otherwise fall back to SYN.uv_current. -/
def FieldProvider.current_uv (fp : FieldProvider) (lat lon tsec : ℝ) : ℝ × ℝ :=
  match fp.ds_ecco with
  | some ds => (sample_from_dataset ds.var1 ds.lats ds.lons lat lon fp.tidx_ecco,
                sample_from_dataset ds.var2 ds.lats ds.lons lat lon fp.tidx_ecco)
  | none => SYN.uv_current lat lon tsec

/-- FieldProvider.wind10m_uv: sample the MERRA-2 dataset when present,
otherwise fall back to SYN.uv_wind10m. -/
def FieldProvider.wind10m_uv (fp : FieldProvider) (lat lon tsec : ℝ) : ℝ × ℝ :=
  match fp.ds_merra with
  | some ds => (sample_from_dataset ds.var1 ds.lats ds.lons lat lon fp.tidx_merra,
                sample_from_dataset ds.var2 ds.lats ds.lons lat lon fp.tidx_merra)
  | none => SYN.uv_wind10m lat lon tsec

/-- FIELDS = FieldProvider(): the repository ships no NetCDF files, so both
dataset loaders return None and the handles are absent. -/
def FIELDS : FieldProvider := ⟨none, none, 0, 0⟩

/-- Arguments of simulate_particles (the SimulationRequest): release point,
horizon in hours, particle count, windage and diffusivity coefficients and
the time direction. -/
structure SimReq where
  lat0 : ℝ
  lon0 : ℝ
  hours : ℝ
  n : ℕ
  windage : ℝ
  diff_m2s : ℝ
  backward : Bool

/-- Mutable state of the integration loop: per-particle latitude and
longitude arrays, the next unread index of the random stream, the sampling
accumulator and the accumulated centroid track. -/
structure SimState where
  lat : ℕ → ℝ
  lon : ℕ → ℝ
  ctr : ℕ
  accum : ℕ
  track : List (ℝ × ℝ)

/-- Initial ensemble: Gaussian jitter of scale 0.001 degrees around the
release point; the lat array consumes draws 0..n-1 and the lon array draws
n..2n-1, as the two rng.normal calls do. -/
def initState (p : SimReq) (g : ℕ → ℝ) : SimState :=
  { lat := fun i => p.lat0 + 0.001 * g i
    lon := fun i => p.lon0 + 0.001 * g (p.n + i)
    ctr := 2 * p.n
    accum := 0
    track := [] }

/-- sigma = math.sqrt(max(2.0*diff_m2s*abs(dt_sec), 1e-12)) from the
integration loop. -/
def sigmaPy (diff_m2s dt_sec : ℝ) : ℝ := Real.sqrt (max (2.0 * diff_m2s * |dt_sec|) 1e-12)

/-- meters_to_deg_lat(d) = d / 111000. -/
def meters_to_deg_lat (d : ℝ) : ℝ := d / 111000

/-- meters_to_deg_lon(d, lat_) = d / (111000*cos(radians(lat_)) + 1e-9). -/
def meters_to_deg_lon (d lat_ : ℝ) : ℝ := d / (111000 * Real.cos (radians lat_) + 1e-9)

/-- u = u_c + windage*u_w for one particle position. -/
def uTotal (fp : FieldProvider) (w lat lon tsec : ℝ) : ℝ :=
  (fp.current_uv lat lon tsec).1 + w * (fp.wind10m_uv lat lon tsec).1

/-- v = v_c + windage*v_w for one particle position. -/
def vTotal (fp : FieldProvider) (w lat lon tsec : ℝ) : ℝ :=
  (fp.current_uv lat lon tsec).2 + w * (fp.wind10m_uv lat lon tsec).2

/-- Updated longitude array of one step: advection plus random walk,
converted meters to degrees using the pre-step latitude, then clipped into
the Domain (lon is updated before lat in the source, so both updates read
the pre-step latitude). -/
def newLonF (fp : FieldProvider) (p : SimReq) (g : ℕ → ℝ) (dt_sec : ℝ) (k : ℕ)
    (s : SimState) : ℕ → ℝ := fun i =>
  npClip (s.lon i + meters_to_deg_lon
      (uTotal fp p.windage (s.lat i) (s.lon i) ((k : ℝ) * dt_sec) * dt_sec +
        sigmaPy p.diff_m2s dt_sec * g (s.ctr + i)) (s.lat i))
    DOMAIN.lon_min DOMAIN.lon_max

/-- Updated latitude array of one step: advection plus random walk,
converted meters to degrees, then clipped into the Domain. -/
def newLatF (fp : FieldProvider) (p : SimReq) (g : ℕ → ℝ) (dt_sec : ℝ) (k : ℕ)
    (s : SimState) : ℕ → ℝ := fun i =>
  npClip (s.lat i + meters_to_deg_lat
      (vTotal fp p.windage (s.lat i) (s.lon i) ((k : ℝ) * dt_sec) * dt_sec +
        sigmaPy p.diff_m2s dt_sec * g (s.ctr + p.n + i)))
    DOMAIN.lat_min DOMAIN.lat_max

/-- float(np.mean(a)) over the first n entries of a per-particle array. -/
def meanArr (n : ℕ) (f : ℕ → ℝ) : ℝ := (((List.range n).map f).sum) / n

/-- One iteration of the integration loop at loop index k (tsec = k*dt_sec):
update both coordinate arrays, advance the random stream by 2n draws,
bump the sampling accumulator and append the ensemble centroid every
SAMPLE_EVERY_STEPS-th step. -/
def stepSim (fp : FieldProvider) (p : SimReq) (g : ℕ → ℝ) (dt_sec : ℝ) (k : ℕ)
    (s : SimState) : SimState :=
  if s.accum + 1 ≥ SAMPLE_EVERY_STEPS then
    { lat := newLatF fp p g dt_sec k s
      lon := newLonF fp p g dt_sec k s
      ctr := s.ctr + 2 * p.n
      accum := 0
      track := s.track ++
        [(meanArr p.n (newLonF fp p g dt_sec k s), meanArr p.n (newLatF fp p g dt_sec k s))] }
  else
    { lat := newLatF fp p g dt_sec k s
      lon := newLonF fp p g dt_sec k s
      ctr := s.ctr + 2 * p.n
      accum := s.accum + 1
      track := s.track }

/-- State after the first j iterations of the loop (loop indices 0..j-1). -/
def stateAfter (fp : FieldProvider) (p : SimReq) (g : ℕ → ℝ) (dt_sec : ℝ) : ℕ → SimState
  | 0 => initState p g
  | j + 1 => stepSim fp p g dt_sec j (stateAfter fp p g dt_sec j)

/-- The `if not mean_track: mean_track = [(lon0, lat0)]` fallback. -/
def fallbackTrack (t : List (ℝ × ℝ)) (lon0 lat0 : ℝ) : List (ℝ × ℝ) :=
  match t with
  | [] => [(lon0, lat0)]
  | t => t

/-- Result dict of simulate_particles. -/
structure SimResult where
  mean_track : List (ℝ × ℝ)
  final_cloud : List (ℝ × ℝ)

/-- The whole run for a given signed time step: iterate the loop for the
computed number of steps, then aggregate the outputs
(final_cloud = list(zip(lon.tolist(), lat.tolist()))). -/
def simulateCore (fp : FieldProvider) (p : SimReq) (g : ℕ → ℝ) (dt_sec : ℝ) : SimResult :=
  { mean_track :=
      fallbackTrack (stateAfter fp p g dt_sec (numSteps p.hours)).track p.lon0 p.lat0
    final_cloud := (List.range p.n).map fun i =>
      ((stateAfter fp p g dt_sec (numSteps p.hours)).lon i,
       (stateAfter fp p g dt_sec (numSteps p.hours)).lat i) }

/-- simulate_particles(lat0, lon0, hours, n, windage, diff_m2s, backward):
dt_sec = -DT_SECONDS if backward else DT_SECONDS, applied to the global
FIELDS provider; the random stream g stands for the generator produced by
seed_rng(seed). -/
def simulate_particles (p : SimReq) (g : ℕ → ℝ) : SimResult :=
  simulateCore FIELDS p g (if p.backward then -DT_SECONDS else DT_SECONDS)

/-- The all-zeros random stream (an admissible realisation of the
generator's standard-normal draws). -/
def gZero : ℕ → ℝ := fun _ => 0

/-- The all-ones random stream. -/
def gOne : ℕ → ℝ := fun _ => 1

/-- A one-particle release at the Domain's south-west corner with a
10-minute horizon (exactly one integration step), zero diffusivity and a
chosen windage coefficient. -/
def cornerReq (w : ℝ) : SimReq := ⟨22.5, 56.5, 1/6, 1, w, 0, false⟩

/-- Predicate: every particle coordinate of a state lies inside DOMAIN. -/
def inDomainState (s : SimState) : Prop :=
  ∀ i, DOMAIN.lat_min ≤ s.lat i ∧ s.lat i ≤ DOMAIN.lat_max ∧
    DOMAIN.lon_min ≤ s.lon i ∧ s.lon i ≤ DOMAIN.lon_max

/-- Example grid for interpolation witnesses. -/
def exArr : ℕ → ℕ → ℝ := fun j i => 10 * j + i

/-! ## Helper lemmas -/

theorem npClip_mem (x a b : ℝ) (hab : a ≤ b) : a ≤ npClip x a b ∧ npClip x a b ≤ b :=
  ⟨le_min hab (le_max_left a x), min_le_left b _⟩

theorem numSteps_eq_floor (hours : ℝ) :
    (numSteps hours : ℤ) = ⌊|hours * 3600 / DT_SECONDS|⌋ := by
  unfold numSteps pyIntTrunc
  rw [if_pos (abs_nonneg _)]
  exact Int.toNat_of_nonneg (Int.floor_nonneg.mpr (abs_nonneg _))

theorem numSteps_zero : numSteps 0 = 0 := by
  have h : |(0 : ℝ) * 3600 / DT_SECONDS| = 0 := by norm_num
  unfold numSteps pyIntTrunc
  rw [h]
  norm_num

theorem numSteps_sixth : numSteps (1 / 6) = 1 := by
  have h : |(1 / 6 : ℝ) * 3600 / DT_SECONDS| = 1 := by norm_num [DT_SECONDS]
  unfold numSteps pyIntTrunc
  rw [h]
  norm_num

theorem numSteps_one_hour : numSteps 1 = 6 := by
  have h : |(1 : ℝ) * 3600 / DT_SECONDS| = 6 := by norm_num [DT_SECONDS]
  unfold numSteps pyIntTrunc
  rw [h]
  norm_num
  decide

theorem fallbackTrack_length (t : List (ℝ × ℝ)) (lon0 lat0 : ℝ) :
    (fallbackTrack t lon0 lat0).length = max 1 t.length := by
  cases t with
  | nil => rfl
  | cons a l =>
    show (a :: l).length = max 1 (a :: l).length
    simp

theorem fallbackTrack_length_pos (t : List (ℝ × ℝ)) (lon0 lat0 : ℝ) :
    1 ≤ (fallbackTrack t lon0 lat0).length := by
  rw [fallbackTrack_length]
  exact le_max_left 1 _

theorem stepSim_lat (fp : FieldProvider) (p : SimReq) (g : ℕ → ℝ) (dt_sec : ℝ) (k : ℕ)
    (s : SimState) : (stepSim fp p g dt_sec k s).lat = newLatF fp p g dt_sec k s := by
  unfold stepSim
  split <;> rfl

theorem stepSim_lon (fp : FieldProvider) (p : SimReq) (g : ℕ → ℝ) (dt_sec : ℝ) (k : ℕ)
    (s : SimState) : (stepSim fp p g dt_sec k s).lon = newLonF fp p g dt_sec k s := by
  unfold stepSim
  split <;> rfl

theorem stepSim_accum (fp : FieldProvider) (p : SimReq) (g : ℕ → ℝ) (dt_sec : ℝ) (k : ℕ)
    (s : SimState) : (stepSim fp p g dt_sec k s).accum =
      if s.accum + 1 ≥ SAMPLE_EVERY_STEPS then 0 else s.accum + 1 := by
  unfold stepSim
  split <;> simp_all

theorem stepSim_track_length (fp : FieldProvider) (p : SimReq) (g : ℕ → ℝ) (dt_sec : ℝ)
    (k : ℕ) (s : SimState) : (stepSim fp p g dt_sec k s).track.length =
      if s.accum + 1 ≥ SAMPLE_EVERY_STEPS then s.track.length + 1 else s.track.length := by
  unfold stepSim
  split <;> simp_all

theorem stateAfter_accum_track (fp : FieldProvider) (p : SimReq) (g : ℕ → ℝ) (dt_sec : ℝ)
    (j : ℕ) : (stateAfter fp p g dt_sec j).accum = j % SAMPLE_EVERY_STEPS ∧
      (stateAfter fp p g dt_sec j).track.length = j / SAMPLE_EVERY_STEPS := by
  induction j with
  | zero => exact ⟨rfl, rfl⟩
  | succ j ih =>
    have hs : stateAfter fp p g dt_sec (j + 1) =
        stepSim fp p g dt_sec j (stateAfter fp p g dt_sec j) := rfl
    rw [hs, stepSim_accum, stepSim_track_length, ih.1, ih.2]
    unfold SAMPLE_EVERY_STEPS
    constructor <;> split <;> omega

theorem mean_track_length (p : SimReq) (g : ℕ → ℝ) :
    (simulate_particles p g).mean_track.length =
      max 1 (numSteps p.hours / SAMPLE_EVERY_STEPS) := by
  show (fallbackTrack _ _ _).length = _
  rw [fallbackTrack_length,
    (stateAfter_accum_track FIELDS p g (if p.backward then -DT_SECONDS else DT_SECONDS)
      (numSteps p.hours)).2]

theorem stepSim_inDomain (fp : FieldProvider) (p : SimReq) (g : ℕ → ℝ) (dt_sec : ℝ) (k : ℕ)
    (s : SimState) : inDomainState (stepSim fp p g dt_sec k s) := by
  intro i
  rw [stepSim_lat, stepSim_lon]
  unfold newLatF newLonF
  have hlat := npClip_mem (s.lat i + meters_to_deg_lat
      (vTotal fp p.windage (s.lat i) (s.lon i) ((k : ℝ) * dt_sec) * dt_sec +
        sigmaPy p.diff_m2s dt_sec * g (s.ctr + p.n + i)))
    DOMAIN.lat_min DOMAIN.lat_max (by norm_num [DOMAIN])
  have hlon := npClip_mem (s.lon i + meters_to_deg_lon
      (uTotal fp p.windage (s.lat i) (s.lon i) ((k : ℝ) * dt_sec) * dt_sec +
        sigmaPy p.diff_m2s dt_sec * g (s.ctr + i)) (s.lat i))
    DOMAIN.lon_min DOMAIN.lon_max (by norm_num [DOMAIN])
  exact ⟨hlat.1, hlat.2, hlon.1, hlon.2⟩

theorem stateAfter_inDomain (fp : FieldProvider) (p : SimReq) (g : ℕ → ℝ) (dt_sec : ℝ)
    (j : ℕ) (hj : 1 ≤ j) : inDomainState (stateAfter fp p g dt_sec j) := by
  cases j with
  | zero => omega
  | succ j => exact stepSim_inDomain fp p g dt_sec j (stateAfter fp p g dt_sec j)

/-! ## Evaluation of the synthetic fields at the Domain corner at t = 0 -/

theorem radians_sixty : radians 60.0 = Real.pi / 3 := by
  unfold radians
  ring

theorem radians_corner : radians 22.5 = Real.pi / 8 := by
  unfold radians
  ring

theorem SYN_current_corner : SYN.uv_current 22.5 56.5 0 = (0.05, 0) := by
  unfold SyntheticFields.uv_current SYN DOMAIN
  norm_num

theorem SYN_wind_t0 (lat lon : ℝ) : SYN.uv_wind10m lat lon 0 = (2, 2 * Real.sqrt 3) := by
  unfold SyntheticFields.uv_wind10m
  rw [radians_sixty]
  norm_num [Real.cos_pi_div_three, Real.sin_pi_div_three]
  ring

theorem FIELDS_current_corner : FIELDS.current_uv 22.5 56.5 0 = (0.05, 0) :=
  SYN_current_corner

theorem FIELDS_wind_t0 (lat lon : ℝ) : FIELDS.wind10m_uv lat lon 0 = (2, 2 * Real.sqrt 3) :=
  SYN_wind_t0 lat lon

theorem cos_corner_bounds :
    1 / 2 ≤ Real.cos (radians 22.5) ∧ Real.cos (radians 22.5) ≤ 1 := by
  rw [radians_corner]
  constructor
  · have h1 : (0 : ℝ) ≤ Real.pi / 8 := by positivity
    have h2 : Real.pi / 3 ≤ Real.pi := by linarith [Real.pi_pos]
    have h3 : Real.pi / 8 ≤ Real.pi / 3 := by linarith [Real.pi_pos]
    have h := Real.cos_le_cos_of_nonneg_of_le_pi h1 h2 h3
    rw [Real.cos_pi_div_three] at h
    exact h
  · exact Real.cos_le_one _

theorem corner_denom_bound :
    55500 ≤ 111000 * Real.cos (radians 22.5) + 1e-9 := by
  have h := cos_corner_bounds.1
  nlinarith

theorem corner_denom_pos : 0 < 111000 * Real.cos (radians 22.5) + 1e-9 := by
  linarith [corner_denom_bound]

theorem m2dlon_corner_pos_lt :
    0 < meters_to_deg_lon 30 22.5 ∧ meters_to_deg_lon 30 22.5 < 4 := by
  unfold meters_to_deg_lon
  constructor
  · exact div_pos (by norm_num) corner_denom_pos
  · rw [div_lt_iff₀ corner_denom_pos]
    nlinarith [corner_denom_bound]

theorem m2dlon_corner_neg (m : ℝ) (hm : m < 0) : meters_to_deg_lon m 22.5 < 0 := by
  unfold meters_to_deg_lon
  exact div_neg_of_neg_of_pos hm corner_denom_pos

theorem m2dlat_neg (m : ℝ) (hm : m < 0) : meters_to_deg_lat m < 0 := by
  unfold meters_to_deg_lat
  exact div_neg_of_neg_of_pos hm (by norm_num)

theorem npClip_of_le (x a b : ℝ) (h1 : x ≤ a) (h2 : a ≤ b) : npClip x a b = a := by
  unfold npClip
  rw [max_eq_left h1, min_eq_right h2]

theorem npClip_of_mem (x a b : ℝ) (h1 : a ≤ x) (h2 : x ≤ b) : npClip x a b = x := by
  unfold npClip
  rw [max_eq_right h1, min_eq_right h2]

/-! ## One integration step from the Domain's south-west corner -/

theorem corner_step_track (w : ℝ) :
    (stateAfter FIELDS (cornerReq w) gZero DT_SECONDS 1).track = [] := by
  have hS : stateAfter FIELDS (cornerReq w) gZero DT_SECONDS 1 =
      stepSim FIELDS (cornerReq w) gZero DT_SECONDS 0 (initState (cornerReq w) gZero) := rfl
  rw [hS]
  simp [stepSim, initState, SAMPLE_EVERY_STEPS]

theorem corner_step_lon (w : ℝ) (i : ℕ) :
    (stateAfter FIELDS (cornerReq w) gZero DT_SECONDS 1).lon i =
      npClip (56.5 + meters_to_deg_lon ((0.05 + w * 2) * 600) 22.5)
        DOMAIN.lon_min DOMAIN.lon_max := by
  have hS : stateAfter FIELDS (cornerReq w) gZero DT_SECONDS 1 =
      stepSim FIELDS (cornerReq w) gZero DT_SECONDS 0 (initState (cornerReq w) gZero) := rfl
  rw [hS, stepSim_lon]
  unfold newLonF uTotal
  simp only [initState, cornerReq, gZero, DT_SECONDS, Nat.cast_zero, zero_mul, mul_zero,
    add_zero]
  rw [FIELDS_current_corner, FIELDS_wind_t0]
  norm_num

theorem corner_step_lat (w : ℝ) (i : ℕ) :
    (stateAfter FIELDS (cornerReq w) gZero DT_SECONDS 1).lat i =
      npClip (22.5 + meters_to_deg_lat (w * (2 * Real.sqrt 3) * 600))
        DOMAIN.lat_min DOMAIN.lat_max := by
  have hS : stateAfter FIELDS (cornerReq w) gZero DT_SECONDS 1 =
      stepSim FIELDS (cornerReq w) gZero DT_SECONDS 0 (initState (cornerReq w) gZero) := rfl
  rw [hS, stepSim_lat]
  unfold newLatF vTotal
  simp only [initState, cornerReq, gZero, DT_SECONDS, Nat.cast_zero, zero_mul, mul_zero,
    add_zero]
  rw [FIELDS_current_corner, FIELDS_wind_t0]
  norm_num

theorem corner_run (w : ℝ) :
    (simulate_particles (cornerReq w) gZero).mean_track = [(56.5, 22.5)] ∧
    (simulate_particles (cornerReq w) gZero).final_cloud =
      [((stateAfter FIELDS (cornerReq w) gZero DT_SECONDS 1).lon 0,
        (stateAfter FIELDS (cornerReq w) gZero DT_SECONDS 1).lat 0)] := by
  have hdt : (if (cornerReq w).backward then -DT_SECONDS else DT_SECONDS) = DT_SECONDS := rfl
  have hsteps : numSteps (cornerReq w).hours = 1 := numSteps_sixth
  unfold simulate_particles simulateCore
  rw [hdt, hsteps]
  constructor
  · rw [corner_step_track]
    rfl
  · simp [cornerReq, List.range_succ]

theorem corner_run_w0_lon :
    (stateAfter FIELDS (cornerReq 0) gZero DT_SECONDS 1).lon 0 =
      56.5 + meters_to_deg_lon 30 22.5 := by
  rw [corner_step_lon 0 0]
  rw [show ((0.05 + (0 : ℝ) * 2) * 600) = 30 by norm_num]
  have hd := m2dlon_corner_pos_lt
  have h1 : (56.5 : ℝ) ≤ 56.5 + meters_to_deg_lon 30 22.5 := by linarith [hd.1]
  have h2 : (56.5 : ℝ) + meters_to_deg_lon 30 22.5 ≤ 60.5 := by linarith [hd.2]
  exact npClip_of_mem _ _ _ h1 h2

theorem corner_run_w0_lat :
    (stateAfter FIELDS (cornerReq 0) gZero DT_SECONDS 1).lat 0 = 22.5 := by
  rw [corner_step_lat 0 0]
  rw [show ((0 : ℝ) * (2 * Real.sqrt 3) * 600) = 0 by ring]
  rw [show meters_to_deg_lat 0 = 0 by unfold meters_to_deg_lat; norm_num]
  rw [show (22.5 : ℝ) + 0 = 22.5 by norm_num]
  exact npClip_of_mem _ _ _ (by norm_num [DOMAIN]) (by norm_num [DOMAIN])

theorem corner_run_pinned_lon :
    (stateAfter FIELDS (cornerReq (-1000)) gZero DT_SECONDS 1).lon 0 = 56.5 := by
  rw [corner_step_lon (-1000) 0]
  simp only [DOMAIN]
  have hm : ((0.05 + (-1000 : ℝ) * 2) * 600) < 0 := by norm_num
  have hd := m2dlon_corner_neg _ hm
  have h1 : (56.5 : ℝ) + meters_to_deg_lon ((0.05 + (-1000 : ℝ) * 2) * 600) 22.5 ≤ 56.5 := by
    linarith
  exact npClip_of_le _ _ _ h1 (by norm_num)

theorem corner_run_pinned_lat :
    (stateAfter FIELDS (cornerReq (-1000)) gZero DT_SECONDS 1).lat 0 = 22.5 := by
  rw [corner_step_lat (-1000) 0]
  simp only [DOMAIN]
  have hs3 : 0 < Real.sqrt 3 := Real.sqrt_pos.mpr (by norm_num)
  have hm : ((-1000 : ℝ) * (2 * Real.sqrt 3) * 600) < 0 := by nlinarith
  have hd := m2dlat_neg _ hm
  have h1 : (22.5 : ℝ) + meters_to_deg_lat ((-1000 : ℝ) * (2 * Real.sqrt 3) * 600) ≤ 22.5 := by
    linarith
  exact npClip_of_le _ _ _ h1 (by norm_num)

/-! ## Index lemmas for the bilinear interpolator -/

theorem idx0_natCast (n i : ℕ) (h : i < n) : idx0 n ((i : ℕ) : ℝ) = (i : ℤ) := by
  unfold idx0 clamp
  rw [Int.floor_natCast]
  omega

theorem idx_neg (n : ℕ) (x : ℝ) (hx : x < 0) : idx0 n x = 0 ∧ idx1 n x = 0 := by
  have hf : ⌊x⌋ < 0 := Int.floor_lt.mpr (by simpa using hx)
  unfold idx0 idx1 clamp
  omega

theorem idx_big (n : ℕ) (x : ℝ) (hn : 1 ≤ n) (hx : ((n : ℝ) - 1) < x) :
    idx0 n x = (n : ℤ) - 1 ∧ idx1 n x = (n : ℤ) - 1 := by
  have hf : (n : ℤ) - 1 ≤ ⌊x⌋ := by
    rw [Int.le_floor]
    push_cast
    linarith
  unfold idx0 idx1 clamp
  omega

theorem idx0_zero (n : ℕ) : idx0 n 0 = 0 := by
  unfold idx0 clamp
  rw [Int.floor_zero]
  omega

theorem idx_cast_pred (n : ℕ) (hn : 1 ≤ n) :
    idx0 n ((n : ℝ) - 1) = (n : ℤ) - 1 ∧ idx1 n ((n : ℝ) - 1) = (n : ℤ) - 1 := by
  have hf : ⌊(n : ℝ) - 1⌋ = (n : ℤ) - 1 := by
    rw [show ((n : ℝ) - 1) = (((n : ℤ) - 1 : ℤ) : ℝ) by push_cast; ring]
    exact Int.floor_intCast _
  unfold idx0 idx1 clamp
  rw [hf]
  omega

/-! ## Claim theorems -/

/-- C6: bilinear interpolation returns the stored value arr[j][i] exactly
when sampled at an in-range integer index pair (x=i, y=j); and for a query
whose x or y lies outside the index range [0, extent-1], the result equals
the interpolant evaluated at the clamped coordinate (0 from below, extent-1
from above) — edge-value extrapolation on each axis, with the function
total, so a query can never fail. -/
theorem C6_bilinear_interpolation :
    (∀ (arr : ℕ → ℕ → ℝ) (ny nx i j : ℕ), i < nx → j < ny →
      bilinear_interpolate arr ny nx (i : ℝ) (j : ℝ) = arr j i) ∧
    (∀ (arr : ℕ → ℕ → ℝ) (ny nx : ℕ) (x y : ℝ), x < 0 →
      bilinear_interpolate arr ny nx x y = bilinear_interpolate arr ny nx 0 y) ∧
    (∀ (arr : ℕ → ℕ → ℝ) (ny nx : ℕ) (x y : ℝ), 1 ≤ nx → ((nx : ℝ) - 1) < x →
      bilinear_interpolate arr ny nx x y =
        bilinear_interpolate arr ny nx ((nx : ℝ) - 1) y) ∧
    (∀ (arr : ℕ → ℕ → ℝ) (ny nx : ℕ) (x y : ℝ), y < 0 →
      bilinear_interpolate arr ny nx x y = bilinear_interpolate arr ny nx x 0) ∧
    (∀ (arr : ℕ → ℕ → ℝ) (ny nx : ℕ) (x y : ℝ), 1 ≤ ny → ((ny : ℝ) - 1) < y →
      bilinear_interpolate arr ny nx x y =
        bilinear_interpolate arr ny nx x ((ny : ℝ) - 1)) := by
  refine ⟨?_, ?_, ?_, ?_, ?_⟩
  · intro arr ny nx i j hi hj
    unfold bilinear_interpolate
    rw [idx0_natCast nx i hi, idx0_natCast ny j hj]
    simp only [Int.toNat_natCast]
    push_cast
    ring
  · intro arr ny nx x y hx
    obtain ⟨h0, h1⟩ := idx_neg nx x hx
    unfold bilinear_interpolate
    rw [h0, h1, idx0_zero]
    simp only [Int.toNat_zero]
    push_cast
    ring
  · intro arr ny nx x y hnx hx
    obtain ⟨h0, h1⟩ := idx_big nx x hnx hx
    obtain ⟨h0', h1'⟩ := idx_cast_pred nx hnx
    unfold bilinear_interpolate
    rw [h0, h1, h0', h1']
    push_cast
    ring
  · intro arr ny nx x y hy
    obtain ⟨h0, h1⟩ := idx_neg ny y hy
    unfold bilinear_interpolate
    rw [h0, h1, idx0_zero]
    simp only [Int.toNat_zero]
    push_cast
    ring
  · intro arr ny nx x y hny hy
    obtain ⟨h0, h1⟩ := idx_big ny y hny hy
    obtain ⟨h0', h1'⟩ := idx_cast_pred ny hny
    unfold bilinear_interpolate
    rw [h0, h1, h0', h1']
    push_cast
    ring

/-- Witness for C6_bilinear_interpolation: sampling the example grid at
the interior vertex (1, 1) returns exArr 1 1. -/
theorem C6_bilinear_interpolation_witness :
    bilinear_interpolate exArr 2 3 ((1 : ℕ) : ℝ) ((1 : ℕ) : ℝ) = exArr 1 1 :=
  C6_bilinear_interpolation.1 exArr 2 3 1 1 (by norm_num) (by norm_num)

/-- C1 (amended): after every completed integration step (any provider,
any request, any signed tick, hence both directions) every particle's
latitude lies in [lat_min, lat_max] and its longitude in
[lon_min, lon_max] of the Domain; consequently every coordinate in
final_cloud lies in the Domain whenever at least one step executes.  (The
original "therefore for every coordinate in final_cloud" for any horizon
fails for zero-step horizons, where final_cloud is the unclamped initial
jitter cloud — see the counterexample theorem.) -/
theorem C1_clamp_invariant :
    (∀ (fp : FieldProvider) (p : SimReq) (g : ℕ → ℝ) (dt_sec : ℝ) (j : ℕ), 1 ≤ j →
      inDomainState (stateAfter fp p g dt_sec j)) ∧
    (∀ (p : SimReq) (g : ℕ → ℝ), 1 ≤ numSteps p.hours →
      ∀ q ∈ (simulate_particles p g).final_cloud,
        DOMAIN.lon_min ≤ q.1 ∧ q.1 ≤ DOMAIN.lon_max ∧
        DOMAIN.lat_min ≤ q.2 ∧ q.2 ≤ DOMAIN.lat_max) := by
  refine ⟨stateAfter_inDomain, ?_⟩
  intro p g hs q hq
  simp only [simulate_particles, simulateCore] at hq
  obtain ⟨i, -, rfl⟩ := List.mem_map.mp hq
  have h := stateAfter_inDomain FIELDS p g (if p.backward then -DT_SECONDS else DT_SECONDS)
    (numSteps p.hours) hs i
  exact ⟨h.2.2.1, h.2.2.2, h.1, h.2.1⟩

/-- Witness for C1_clamp_invariant: the state after one completed step of
a concrete run satisfies the latitude bounds. -/
theorem C1_clamp_invariant_witness :
    DOMAIN.lat_min ≤ (stateAfter FIELDS (cornerReq 0) gZero DT_SECONDS 1).lat 0 ∧
    (stateAfter FIELDS (cornerReq 0) gZero DT_SECONDS 1).lat 0 ≤ DOMAIN.lat_max := by
  have h := C1_clamp_invariant.1 FIELDS (cornerReq 0) gZero DT_SECONDS 1 (by norm_num) 0
  exact ⟨h.1, h.2.1⟩

/-- C1 counterexample: a release on the Domain's north edge (lat0 = 26.0,
inside the Domain) with a zero-hour horizon runs zero steps, so
final_cloud is the initial jitter cloud; with jitter draw 1 its latitude
is 26.001 > lat_max = 26.0, so the claim's "for every coordinate in
final_cloud" fails for that run. -/
theorem C1_zero_step_escape :
    (simulate_particles ⟨26.0, 58.5, 0, 1, 0.02, 0.5, false⟩ gOne).final_cloud =
      [(58.501, 26.001)] ∧ DOMAIN.lat_max < 26.001 := by
  constructor
  · unfold simulate_particles simulateCore
    rw [show numSteps (⟨26.0, 58.5, 0, 1, 0.02, 0.5, false⟩ : SimReq).hours = 0
      from numSteps_zero]
    norm_num [stateAfter, initState, gOne, List.range_succ]
  · norm_num [DOMAIN]

/-- C2 counterexample: the code floors the variance term at 1e-12, so at
diffusivity 0 the per-step standard deviation is 1e-6 m while the claim's
formula sqrt(2*0*|dt|) gives 0 — randomness is not exactly removed. -/
theorem C2_sigma_zero_counterexample :
    sigmaPy 0 DT_SECONDS = 1e-6 ∧ Real.sqrt (2 * 0 * |DT_SECONDS|) = 0 ∧
      (1e-6 : ℝ) ≠ 0 := by
  refine ⟨?_, by norm_num, by norm_num⟩
  unfold sigmaPy
  rw [show max (2.0 * 0 * |DT_SECONDS|) 1e-12 = 1e-12 by norm_num [DT_SECONDS],
    show (1e-12 : ℝ) = 1e-6 ^ 2 by norm_num]
  exact Real.sqrt_sq (by norm_num)

/-- C2 (amended): the per-step random-walk standard deviation is
sigma = sqrt(max(2*diffusivity*|dt|, 1e-12)) meters; whenever
2*diffusivity*|dt| ≥ 1e-12 (every physically meaningful diffusivity,
e.g. the default 0.5 m²/s) it equals the claimed sqrt(2*diffusivity*|dt|)
exactly.  With diffusivity = 0 it is 1e-6 m, not 0. -/
theorem C2_sigma_amended (d dt_sec : ℝ) (h : 1e-12 ≤ 2.0 * d * |dt_sec|) :
    sigmaPy d dt_sec = Real.sqrt (2 * d * |dt_sec|) := by
  unfold sigmaPy
  rw [max_eq_left h]
  norm_num

/-- Witness for C2_sigma_amended at the default diffusivity 0.5 and the
forward tick. -/
theorem C2_sigma_amended_witness :
    sigmaPy 0.5 DT_SECONDS = Real.sqrt (2 * 0.5 * |DT_SECONDS|) := by
  have h : 1e-12 ≤ 2.0 * 0.5 * |DT_SECONDS| := by
    rw [show |DT_SECONDS| = 600 by norm_num [DT_SECONDS]]
    norm_num
  exact C2_sigma_amended 0.5 DT_SECONDS h

/-- C3: the run is a pure function of the request parameters and of the
random generator's draw stream; np.random.default_rng(seed) is a
deterministic function of its seed, so two runs with identical parameters
and the same explicit seed (hence the same stream) produce identical
mean_track and final_cloud. -/
theorem C3_determinism (p₁ p₂ : SimReq) (g₁ g₂ : ℕ → ℝ)
    (hp : p₁ = p₂) (hg : g₁ = g₂) :
    (simulate_particles p₁ g₁).mean_track = (simulate_particles p₂ g₂).mean_track ∧
    (simulate_particles p₁ g₁).final_cloud = (simulate_particles p₂ g₂).final_cloud := by
  subst hp
  subst hg
  exact ⟨rfl, rfl⟩

/-- Witness for C3_determinism at a concrete request and stream. -/
theorem C3_determinism_witness :
    (simulate_particles (cornerReq 0) gZero).mean_track =
      (simulate_particles (cornerReq 0) gZero).mean_track ∧
    (simulate_particles (cornerReq 0) gZero).final_cloud =
      (simulate_particles (cornerReq 0) gZero).final_cloud :=
  C3_determinism (cornerReq 0) (cornerReq 0) gZero gZero rfl rfl

/-- C4 counterexample: the request n = 0, hours = 1 is a configuration
error per the claim, yet it is not rejected: the integration loop runs its
full 6 steps (the returned mean_track has the 2 centroid samples of a
completed 6-step run) and a normal result with empty final_cloud is
returned. -/
theorem C4_zero_particles_run :
    (simulate_particles ⟨23.6, 58.5, 1, 0, 0.02, 0.5, false⟩ gZero).final_cloud = [] ∧
    (simulate_particles ⟨23.6, 58.5, 1, 0, 0.02, 0.5, false⟩ gZero).mean_track.length = 2 := by
  constructor
  · simp [simulate_particles, simulateCore]
  · rw [mean_track_length]
    rw [show numSteps (⟨23.6, 58.5, 1, 0, 0.02, 0.5, false⟩ : SimReq).hours = 6
      from numSteps_one_hour]
    rfl

/-- C4 (amended): simulate_particles performs no request validation: a
request with particle_count = 0 (a configuration error per the spec) is
accepted, the integration loop still executes the full step count derived
from the horizon, and a normal result with an empty final_cloud is
returned instead of a rejection.  (Only a negative particle count aborts,
via an uncaught numpy exception at array allocation; invalid horizons are
never rejected since the step count takes the absolute value.) -/
theorem C4_no_validation (p : SimReq) (g : ℕ → ℝ) :
    (simulate_particles { p with n := 0 } g).final_cloud = [] ∧
    (simulate_particles { p with n := 0 } g).mean_track.length =
      max 1 (numSteps p.hours / SAMPLE_EVERY_STEPS) := by
  constructor
  · simp [simulate_particles, simulateCore]
  · exact mean_track_length { p with n := 0 } g

/-- C5: with no dataset loaded for a field kind the provider returns the
synthetic model's value exactly, for every (lat, lon, t). -/
theorem C5_synthetic_fallback (fp : FieldProvider) (lat lon tsec : ℝ) :
    (fp.ds_ecco = none → fp.current_uv lat lon tsec = SYN.uv_current lat lon tsec) ∧
    (fp.ds_merra = none → fp.wind10m_uv lat lon tsec = SYN.uv_wind10m lat lon tsec) := by
  constructor
  · intro h
    unfold FieldProvider.current_uv
    rw [h]
  · intro h
    unfold FieldProvider.wind10m_uv
    rw [h]

/-- Witness for C5_synthetic_fallback at the global dataset-free provider
FIELDS. -/
theorem C5_synthetic_fallback_witness :
    FIELDS.current_uv 23.6 58.5 0 = SYN.uv_current 23.6 58.5 0 ∧
    FIELDS.wind10m_uv 23.6 58.5 0 = SYN.uv_wind10m 23.6 58.5 0 :=
  ⟨(C5_synthetic_fallback FIELDS 23.6 58.5 0).1 rfl,
   (C5_synthetic_fallback FIELDS 23.6 58.5 0).2 rfl⟩

theorem stateAfter_backward_irrel (fp : FieldProvider) (g : ℕ → ℝ) (dt_sec : ℝ)
    (l o h : ℝ) (n : ℕ) (w d : ℝ) (b b' : Bool) (j : ℕ) :
    stateAfter fp ⟨l, o, h, n, w, d, b⟩ g dt_sec j =
      stateAfter fp ⟨l, o, h, n, w, d, b'⟩ g dt_sec j := by
  induction j with
  | zero => rfl
  | succ j ih =>
    show stepSim fp ⟨l, o, h, n, w, d, b⟩ g dt_sec j _ =
      stepSim fp ⟨l, o, h, n, w, d, b'⟩ g dt_sec j _
    rw [ih]
    rfl

/-- C7: the step count int(abs(hours*3600/DT_SECONDS)) equals
floor(|hours*3600/DT_SECONDS|); simulate_particles runs the common core
with signed tick -DT_SECONDS when backward and +DT_SECONDS otherwise; and
the core is independent of the backward flag, so direction changes only
the tick sign while the per-step mechanics and step count are identical. -/
theorem C7_step_count_and_direction :
    (∀ hours : ℝ, (numSteps hours : ℤ) = ⌊|hours * 3600 / DT_SECONDS|⌋) ∧
    (∀ (p : SimReq) (g : ℕ → ℝ), simulate_particles p g =
      simulateCore FIELDS p g (if p.backward then -DT_SECONDS else DT_SECONDS)) ∧
    (∀ (fp : FieldProvider) (g : ℕ → ℝ) (dt_sec : ℝ) (l o h : ℝ) (n : ℕ) (w d : ℝ)
      (b b' : Bool),
      simulateCore fp ⟨l, o, h, n, w, d, b⟩ g dt_sec =
        simulateCore fp ⟨l, o, h, n, w, d, b'⟩ g dt_sec) := by
  refine ⟨numSteps_eq_floor, fun p g => rfl, fun fp g dt_sec l o h n w d b b' => ?_⟩
  unfold simulateCore
  rw [stateAfter_backward_irrel fp g dt_sec l o h n w d b b']

/-- C8: for every request with at least one particle and a positive
horizon, mean_track has at least one point and final_cloud has exactly one
(lon, lat) pair per particle. -/
theorem C8_output_shapes (p : SimReq) (g : ℕ → ℝ) (_hn : 1 ≤ p.n) (_hh : 0 < p.hours) :
    1 ≤ (simulate_particles p g).mean_track.length ∧
    (simulate_particles p g).final_cloud.length = p.n := by
  constructor
  · rw [mean_track_length]
    exact le_max_left 1 _
  · simp [simulate_particles, simulateCore]

/-- Witness for C8_output_shapes at a concrete one-particle run. -/
theorem C8_output_shapes_witness :
    1 ≤ (simulate_particles (cornerReq 0) gZero).mean_track.length ∧
    (simulate_particles (cornerReq 0) gZero).final_cloud.length = (cornerReq 0).n :=
  C8_output_shapes (cornerReq 0) gZero (by norm_num [cornerReq]) (by norm_num [cornerReq])

/-- C9: when the computed step count is zero, mean_track is exactly the
one-element list holding the release coordinate (lon0, lat0). -/
theorem C9_degenerate_horizon (p : SimReq) (g : ℕ → ℝ) (h : numSteps p.hours = 0) :
    (simulate_particles p g).mean_track = [(p.lon0, p.lat0)] := by
  unfold simulate_particles simulateCore
  rw [h]
  rfl

/-- Witness for C9_degenerate_horizon at an hours = 0 request. -/
theorem C9_degenerate_horizon_witness :
    (simulate_particles ⟨23.6, 58.5, 0, 5, 0.02, 0.5, false⟩ gZero).mean_track =
      [(58.5, 23.6)] := by
  have h := C9_degenerate_horizon ⟨23.6, 58.5, 0, 5, 0.02, 0.5, false⟩ gZero numSteps_zero
  simpa using h

/-- C10 (amended): mean_track always has length max(1, floor(s /
SAMPLE_EVERY_STEPS)); in particular for any run with step count s <
SAMPLE_EVERY_STEPS no centroid sample is appended and mean_track is
exactly [(lon0, lat0)], the unperturbed release coordinate, regardless of
where the particles actually are.  The particles are typically advected
away from it — witnessed here by a concrete s = 1 run whose final_cloud
provably differs from [(lon0, lat0)] — though not in every run: a particle
pushed against the Domain edge is pinned at the release point (see the
counterexample theorem). -/
theorem C10_track_subsampling :
    (∀ (p : SimReq) (g : ℕ → ℝ),
      (simulate_particles p g).mean_track.length =
        max 1 (numSteps p.hours / SAMPLE_EVERY_STEPS)) ∧
    (∀ (p : SimReq) (g : ℕ → ℝ), numSteps p.hours < SAMPLE_EVERY_STEPS →
      (simulate_particles p g).mean_track = [(p.lon0, p.lat0)]) ∧
    (∃ (p : SimReq) (g : ℕ → ℝ), numSteps p.hours = 1 ∧
      (simulate_particles p g).mean_track = [(p.lon0, p.lat0)] ∧
      (simulate_particles p g).final_cloud ≠ [(p.lon0, p.lat0)]) := by
  refine ⟨mean_track_length, ?_, ?_⟩
  · intro p g h
    have htr : (stateAfter FIELDS p g (if p.backward then -DT_SECONDS else DT_SECONDS)
        (numSteps p.hours)).track = [] := by
      have hl := (stateAfter_accum_track FIELDS p g
        (if p.backward then -DT_SECONDS else DT_SECONDS) (numSteps p.hours)).2
      rw [Nat.div_eq_of_lt h] at hl
      exact List.length_eq_zero.mp hl
    unfold simulate_particles simulateCore
    rw [htr]
    rfl
  · refine ⟨cornerReq 0, gZero, numSteps_sixth, (corner_run 0).1, ?_⟩
    rw [(corner_run 0).2, corner_run_w0_lon, corner_run_w0_lat]
    have hd := m2dlon_corner_pos_lt.1
    intro hc
    rw [List.cons.injEq, Prod.mk.injEq] at hc
    have : (56.5 : ℝ) + meters_to_deg_lon 30 22.5 = 56.5 := hc.1.1
    linarith

/-- Witness for C10_track_subsampling on the concrete s = 1 run: the
returned track is exactly the release coordinate. -/
theorem C10_track_subsampling_witness :
    (simulate_particles (cornerReq 0) gZero).mean_track = [(56.5, 22.5)] := by
  have hlt : numSteps (cornerReq 0).hours < SAMPLE_EVERY_STEPS := by
    rw [show numSteps (cornerReq 0).hours = 1 from numSteps_sixth]
    norm_num [SAMPLE_EVERY_STEPS]
  have h := C10_track_subsampling.2.1 (cornerReq 0) gZero hlt
  simpa [cornerReq] using h

/-- C10 counterexample to its universal "advected away" clause: with
windage -1000 the single particle is pushed outside the Domain on both
axes and np.clip pins it exactly at the corner release coordinate, so an
s = 1 run has final_cloud equal to [(lon0, lat0)] — the particles were not
advected away from the release point. -/
theorem C10_pinned_particle :
    numSteps (cornerReq (-1000)).hours = 1 ∧
    (simulate_particles (cornerReq (-1000)) gZero).mean_track = [(56.5, 22.5)] ∧
    (simulate_particles (cornerReq (-1000)) gZero).final_cloud = [(56.5, 22.5)] := by
  refine ⟨numSteps_sixth, (corner_run (-1000)).1, ?_⟩
  rw [(corner_run (-1000)).2, corner_run_pinned_lon, corner_run_pinned_lat]

end
